import Mathlib

/-!
Verification of the ATECC508A capsule (`capsules/extra/src/atecc508a.rs`).

The driver is a split-phase I2C state machine.  We embed it shallowly:
machine integers become `Nat` with explicit `% 2 ^ w` where the source can
overflow, the `TakeCell`/`OptionalCell` hand-off cells become `Option`
fields of an explicit `State` record, and every transport interaction
(`i2c.write`, `i2c.read`, the wake-up closure, the entropy client callback)
becomes an element of an `Effect` trace.  Rust panics (`unreachable!`,
`assert_eq!`, `.unwrap()` of an error) become a `Fault` error value.
The `i2c.write`/`i2c.read` calls themselves always return `Ok` in this
driver's usage (their `Result` is only `.unwrap()`ped), so issuing a
transfer is modelled as emitting an effect and handing the buffer over
(the `buffer` field becomes `none` while the buffer is on loan).
-/

namespace Atecc508a

/- Protocol and cryptographic constants, verbatim from the source. -/

def RESPONSE_COUNT_SIZE : Nat := 1
def RESPONSE_SIGNAL_SIZE : Nat := 1
def RESPONSE_RANDOM_SIZE : Nat := 32
def CRC_SIZE : Nat := 2

def ATRCC508A_PROTOCOL_FIELD_COMMAND : Nat := 0
def ATRCC508A_PROTOCOL_FIELD_LENGTH : Nat := 1
def ATRCC508A_PROTOCOL_FIELD_OPCODE : Nat := 2
def ATRCC508A_PROTOCOL_FIELD_PARAM1 : Nat := 3
def ATRCC508A_PROTOCOL_FIELD_PARAM2 : Nat := 4
def ATRCC508A_PROTOCOL_FIELD_DATA : Nat := 6

def ATRCC508A_PROTOCOL_FIELD_SIZE_COMMAND : Nat := 1
def ATRCC508A_PROTOCOL_FIELD_SIZE_LENGTH : Nat := 1
def ATRCC508A_PROTOCOL_FIELD_SIZE_OPCODE : Nat := 1
def ATRCC508A_PROTOCOL_FIELD_SIZE_PARAM1 : Nat := 1
def ATRCC508A_PROTOCOL_FIELD_SIZE_PARAM2 : Nat := 2
def ATRCC508A_PROTOCOL_FIELD_SIZE_CRC : Nat := CRC_SIZE

def ZONE_CONFIG : Nat := 0x00

def ADDRESS_CONFIG_READ_BLOCK_0 : Nat := 0x0000
def ADDRESS_CONFIG_READ_BLOCK_2 : Nat := 0x0010

def CONFIG_ZONE_READ_SIZE : Nat := 32
def CONFIG_ZONE_OTP_LOCK : Nat := 86
def CONFIG_ZONE_LOCK_STATUS : Nat := 87

def COMMAND_OPCODE_LOCK : Nat := 0x17
def COMMAND_OPCODE_RANDOM : Nat := 0x1B
def COMMAND_OPCODE_READ : Nat := 0x02
def COMMAND_OPCODE_WRITE : Nat := 0x12
def COMMAND_OPCODE_GENKEY : Nat := 0x40

def LOCK_MODE_ZONE_CONFIG : Nat := 0b10000000
def LOCK_MODE_ZONE_DATA_AND_OTP : Nat := 0b10000001
def LOCK_MODE_SLOT0 : Nat := 0b10000010

def PUBLIC_KEY_SIZE : Nat := 64

def RESPONSE_SIGNAL_INDEX : Nat := RESPONSE_COUNT_SIZE
def ATRCC508A_SUCCESSFUL_LOCK : Nat := 0x00

def WORD_ADDRESS_VALUE_COMMAND : Nat := 0x03

def ATRCC508A_PROTOCOL_OVERHEAD : Nat :=
  ATRCC508A_PROTOCOL_FIELD_SIZE_COMMAND + ATRCC508A_PROTOCOL_FIELD_SIZE_LENGTH +
  ATRCC508A_PROTOCOL_FIELD_SIZE_OPCODE + ATRCC508A_PROTOCOL_FIELD_SIZE_PARAM1 +
  ATRCC508A_PROTOCOL_FIELD_SIZE_PARAM2 + ATRCC508A_PROTOCOL_FIELD_SIZE_CRC

def GENKEY_MODE_NEW_PRIVATE : Nat := 0b00000100

/-- Kernel error codes used by this capsule (`kernel::ErrorCode`). -/
inductive ErrorCode
  | SIZE
  | NOACK
  | BUSY
deriving DecidableEq, Repr

/-- I2C transport status (`kernel::hil::i2c::Error`); per the spec the
statuses that matter are ok, address-phase NAK, data-phase NAK, and any
other transport fault. -/
inductive I2cError
  | addressNak
  | dataNak
  | otherFault
deriving DecidableEq, Repr

/-- A Rust panic: `unreachable!()`, a failed `assert_eq!`, or `.unwrap()`
on a `None`/`Err`. -/
inductive Fault
  | unreachableHit
  | assertFailed
  | unwrapFailed
deriving DecidableEq, Repr

/-- The `Operation` enum, verbatim from the source. -/
inductive Operation
  | Ready
  | ReadConfigZeroCommand
  | ReadConfigZeroResult (run : Nat)
  | ReadConfigTwoCommand
  | ReadConfigTwoResult (run : Nat)
  | GenerateEntropyCommand (run : Nat)
  | GenerateEntropyResult (run : Nat)
  | SetupConfigOne
  | SetupConfigTwo (run : Nat)
  | LockZoneConfig (run : Nat)
  | LockResponse (run : Nat)
  | CreateKeyPair (run : Nat) (slot : Nat)
  | ReadKeyPair (run : Nat)
  | LockDataOtp (run : Nat)
  | LockSlot0 (run : Nat)
deriving DecidableEq, Repr

instance {ε α : Type} [DecidableEq ε] [DecidableEq α] : DecidableEq (Except ε α) := fun x y =>
  match x, y with
  | .ok a, .ok b =>
      if h : a = b then isTrue (by rw [h])
      else isFalse (by intro hc; injection hc; exact h (by assumption))
  | .error a, .error b =>
      if h : a = b then isTrue (by rw [h])
      else isFalse (by intro hc; injection hc; exact h (by assumption))
  | .ok _, .error _ => isFalse (by intro hc; injection hc)
  | .error _, .ok _ => isFalse (by intro hc; injection hc)

/-- Externally visible actions of the driver: the two transport transfers,
the wake-up closure, and the entropy client callback
(`client.entropy_available(iter, result)`; the iterator argument reads the
driver state and is not part of the effect).  Kernel `debug!` output is not
modelled. -/
inductive Effect
  | i2cWrite (frame : List Nat) (len : Nat)
  | i2cRead (len : Nat)
  | wakeup
  | entropyAvailable (result : Except ErrorCode Unit)
deriving DecidableEq, Repr

/-- The fields of `struct Atecc508a`.  `TakeCell`/`OptionalCell` become
`Option`; `buffer = none` means the working buffer is on loan to the
transport.  `entropy_client` records whether a client is registered
(the callback reference itself is irrelevant to the dynamics). -/
structure State where
  buffer : Option (List Nat)
  op : Operation
  op_len : Nat
  entropy_buffer : Option (List Nat)
  entropy_offset : Nat
  entropy_client : Bool
  config_lock : Bool
  data_lock : Bool
  public_key : Option (List Nat)
deriving DecidableEq, Repr

/- ------------------------------------------------------------------ -/
/- CRC-16 (`Atecc508a::calculate_crc`)                                 -/
/- ------------------------------------------------------------------ -/

/-- One iteration of the inner `while` loop of `calculate_crc`:
`data_val = byte & mask`, `data_bit = (data_val > 0)`, `crc_bit` is the
top bit of the 16-bit register, the register shifts left one bit (a `u16`,
hence `% 2 ^ 16`), and is XORed with `0x8005` when the bits differ. -/
def crc_step (byte mask crc_register : Nat) : Nat :=
  let data_val := byte &&& mask
  let data_bit : Nat := if data_val > 0 then 1 else 0
  let crc_bit := crc_register >>> 15
  let shifted := (crc_register <<< 1) % 65536
  if data_bit ≠ crc_bit then shifted ^^^ 0x8005 else shifted

/-- The `u8` shift register of `calculate_crc` starts at `0x01` and is
left-shifted once per iteration; the loop runs while it is nonzero, i.e.
for exactly these eight values, after which the `u8` wraps to zero. -/
def shift_register_values : List Nat := [1, 2, 4, 8, 16, 32, 64, 128]

/-- `Atecc508a::calculate_crc`: the 16-bit register starts at 0 and is
updated by `crc_step` for each byte and each shift-register value. -/
def calculate_crc (data : List Nat) : Nat :=
  data.foldl
    (fun crc_register byte =>
      shift_register_values.foldl (fun crc m => crc_step byte m crc) crc_register)
    0

/- ------------------------------------------------------------------ -/
/- Command framing (`Atecc508a::send_command`, `read`, `write`)        -/
/- ------------------------------------------------------------------ -/

/-- The wire frame assembled by `send_command` in the working buffer and
handed to `i2c.write`:
byte 0 `0x03` (word-address), byte 1 the length byte
(`i2c_length - 1` as `u8`), opcode, param1, param2 little-endian, then the
payload (already staged at offset 6 of the working buffer), then the
CRC-16 little-endian.  The CRC input is
`buffer[1 .. 1 + (i2c_length - 3)]`, i.e. the length byte through the end
of the payload. -/
def mkFrame (command_opcode param1 param2 : Nat) (payload : List Nat) : List Nat :=
  let i2c_length := payload.length + ATRCC508A_PROTOCOL_OVERHEAD
  let header : List Nat :=
    [WORD_ADDRESS_VALUE_COMMAND,
     (i2c_length - ATRCC508A_PROTOCOL_FIELD_SIZE_LENGTH) % 256,
     command_opcode, param1, param2 % 256, (param2 / 256) % 256]
  let crc := calculate_crc (header.drop 1 ++ payload)
  header ++ payload ++ [crc % 256, (crc / 256) % 256]

/-- The `length` payload bytes staged at offset 6 of the working
buffer. -/
def staged_payload (buf : List Nat) (length : Nat) : List Nat :=
  (List.range length).map (fun i => buf.getD (ATRCC508A_PROTOCOL_FIELD_DATA + i) 0)

/-- `Atecc508a::send_command`: if the working buffer is held, build the
frame (the payload is the `length` bytes already staged at offset 6 of the
buffer) and issue one `i2c.write` of `length + 8` bytes, lending the
buffer out; if the buffer is on loan, `TakeCell::take` yields `None`, the
`map` body is skipped, and the function still returns `Ok(())`. -/
def send_command (s : State) (command_opcode param1 param2 : Nat) (length : Nat) :
    State × List Effect :=
  match s.buffer with
  | none => (s, [])
  | some buf =>
      let frame := mkFrame command_opcode param1 param2 (staged_payload buf length)
      ({ s with buffer := none },
       [Effect.i2cWrite frame (length + ATRCC508A_PROTOCOL_OVERHEAD)])

/-- `Atecc508a::read`: length 32 sets bit 7 of the zone byte, length 4
clears it, any other length fails synchronously with `ErrorCode::SIZE`
before touching `op_len` or the transport. -/
def readCmd (s : State) (zone address length : Nat) :
    Except ErrorCode (State × List Effect) :=
  if length = 32 then
    .ok (send_command { s with op_len := length }
      COMMAND_OPCODE_READ (zone ||| 128) address 0)
  else if length = 4 then
    .ok (send_command { s with op_len := length }
      COMMAND_OPCODE_READ (zone &&& 127) address 0)
  else
    .error ErrorCode.SIZE

/-- `Atecc508a::write`: same zone-byte calculation as `read`, but sends
`COMMAND_OPCODE_WRITE` with the staged payload of `length` bytes. -/
def writeCmd (s : State) (zone address length : Nat) :
    Except ErrorCode (State × List Effect) :=
  if length = 32 then
    .ok (send_command { s with op_len := length }
      COMMAND_OPCODE_WRITE (zone ||| 128) address length)
  else if length = 4 then
    .ok (send_command { s with op_len := length }
      COMMAND_OPCODE_WRITE (zone &&& 127) address length)
  else
    .error ErrorCode.SIZE

/-- `copy_from_slice` of 4 staged payload bytes into indices 6..10 of the
working buffer. -/
def stage4 (buf : List Nat) (data : List Nat) : List Nat :=
  buf.take ATRCC508A_PROTOCOL_FIELD_DATA ++ data ++
    buf.drop (ATRCC508A_PROTOCOL_FIELD_DATA + 4)

/- ------------------------------------------------------------------ -/
/- Public entry points                                                 -/
/- ------------------------------------------------------------------ -/

/-- Result of a public entry point: either a panic, or the Rust
`Result<(), ErrorCode>` together with the new state and the emitted
effects. -/
abbrev EntryResult := Except Fault (Except ErrorCode Unit × State × List Effect)

/-- `Atecc508a::read_config_zone`: asserts the operation is `Ready`
(`assert_eq!`), sets `ReadConfigZeroCommand`, wakes the device, and issues
the 32-byte config read of block 0. -/
def read_config_zone (s : State) : EntryResult :=
  if s.op = Operation.Ready then
    let s1 := { s with op := Operation.ReadConfigZeroCommand }
    match readCmd s1 ZONE_CONFIG ADDRESS_CONFIG_READ_BLOCK_0 CONFIG_ZONE_READ_SIZE with
    | .ok (s2, effs) => .ok (.ok (), s2, Effect.wakeup :: effs)
    | .error e => .ok (.error e, s1, [Effect.wakeup])
  else
    .error Fault.assertFailed

/-- `Atecc508a::setup_tock_config`: sets `SetupConfigOne` (no precondition
check), wakes the device, stages the key-config bytes
`{0x33, 0x00, 0x33, 0x00}` at offset 6 of the working buffer, and issues a
4-byte config-zone write at word address `96 / 4 = 24`. -/
def setup_tock_config (s : State) : EntryResult :=
  let s1 := { s with op := Operation.SetupConfigOne }
  let s2 := match s1.buffer with
    | some buf => { s1 with buffer := some (stage4 buf [0x33, 0x00, 0x33, 0x00]) }
    | none => s1
  match writeCmd s2 ZONE_CONFIG (96 / 4) 4 with
  | .ok (s3, effs) => .ok (.ok (), s3, Effect.wakeup :: effs)
  | .error e => .ok (.error e, s2, [Effect.wakeup])

/-- `Atecc508a::lock_zone_config`: sets `LockZoneConfig(0)` (no
precondition check, and no wake-up call in the source) and sends the LOCK
command with mode `0x80`. -/
def lock_zone_config (s : State) : EntryResult :=
  let s1 := { s with op := Operation.LockZoneConfig 0 }
  let (s2, effs) := send_command s1 COMMAND_OPCODE_LOCK LOCK_MODE_ZONE_CONFIG 0x0000 0
  .ok (.ok (), s2, effs)

/-- `Atecc508a::create_key_pair`: sets `CreateKeyPair(0, slot)` (no
precondition check), wakes the device, and sends GENKEY with mode
`0x04` (new private key) and `slot` as param2. -/
def create_key_pair (s : State) (slot : Nat) : EntryResult :=
  let s1 := { s with op := Operation.CreateKeyPair 0 slot }
  let (s2, effs) := send_command s1 COMMAND_OPCODE_GENKEY GENKEY_MODE_NEW_PRIVATE slot 0
  .ok (.ok (), s2, Effect.wakeup :: effs)

/-- `Atecc508a::get_public_key`: synchronous; `OptionalCell::get().unwrap()`
panics if the record is absent; returns `ErrorCode::BUSY` while the stored
key is all zeros, otherwise the stored key.  It reads `public_key` and
modifies nothing. -/
def get_public_key (s : State) : Except Fault (Except ErrorCode (List Nat)) :=
  match s.public_key with
  | none => .error Fault.unwrapFailed
  | some pk =>
      if pk.all (fun x => x == 0) then .ok (.error ErrorCode.BUSY)
      else .ok (.ok pk)

/-- `Atecc508a::lock_data_and_otp`: sets `LockDataOtp(0)` (no precondition
check), wakes the device, and sends LOCK with mode `0x81`. -/
def lock_data_and_otp (s : State) : EntryResult :=
  let s1 := { s with op := Operation.LockDataOtp 0 }
  let (s2, effs) := send_command s1 COMMAND_OPCODE_LOCK LOCK_MODE_ZONE_DATA_AND_OTP 0x0000 0
  .ok (.ok (), s2, Effect.wakeup :: effs)

/-- `Atecc508a::lock_slot0`: sets `LockSlot0(0)` (no precondition check),
wakes the device, and sends LOCK with mode `0x82`. -/
def lock_slot0 (s : State) : EntryResult :=
  let s1 := { s with op := Operation.LockSlot0 0 }
  let (s2, effs) := send_command s1 COMMAND_OPCODE_LOCK LOCK_MODE_SLOT0 0x0000 0
  .ok (.ok (), s2, Effect.wakeup :: effs)

/-- `Atecc508a::device_locked`. -/
def device_locked (s : State) : Bool :=
  s.config_lock && s.data_lock

/-- `Entropy32::get`: sets `GenerateEntropyCommand(0)` (no precondition
check), wakes the device, and sends the RANDOM command. -/
def entropy_get (s : State) : EntryResult :=
  let s1 := { s with op := Operation.GenerateEntropyCommand 0 }
  let (s2, effs) := send_command s1 COMMAND_OPCODE_RANDOM 0x00 0x0000 0
  .ok (.ok (), s2, Effect.wakeup :: effs)

/- ------------------------------------------------------------------ -/
/- Transport completion dispatch (`I2CClient::command_complete`)       -/
/- ------------------------------------------------------------------ -/

/-- The source compares `status` against `Err(DataNak)` and
`Err(AddressNak)`. -/
def nakStatus : Except I2cError Unit → Bool
  | .error .dataNak => true
  | .error .addressNak => true
  | _ => false

/-- `I2CClient::command_complete`.  `buffer` is the buffer handed back by
the transport; `more` is the value the entropy client returns from
`entropy_available` on a successful delivery (`true` = `Continue::More`),
relevant only in the `GenerateEntropyResult` success arm. -/
def command_complete (s : State) (buffer : List Nat)
    (status : Except I2cError Unit) (more : Bool) :
    Except Fault (State × List Effect) :=
  match s.op with
  | Operation.Ready => .error Fault.unreachableHit
  | Operation.ReadConfigZeroCommand =>
      .ok ({ s with op := Operation.ReadConfigZeroResult 0 },
           [Effect.i2cRead (s.op_len + RESPONSE_COUNT_SIZE + CRC_SIZE)])
  | Operation.ReadConfigZeroResult run =>
      if nakStatus status then
        if run = 10 then
          .ok (s, [])
        else
          .ok ({ s with op := Operation.ReadConfigZeroResult (run + 1) },
               [Effect.i2cRead (s.op_len + RESPONSE_COUNT_SIZE + CRC_SIZE)])
      else
        match status with
        | .error _ => .error Fault.assertFailed
        | .ok _ =>
            let s1 := { s with op := Operation.ReadConfigTwoCommand,
                               buffer := some buffer }
            match readCmd s1 ZONE_CONFIG ADDRESS_CONFIG_READ_BLOCK_2 CONFIG_ZONE_READ_SIZE with
            | .ok (s2, effs) => .ok (s2, effs)
            | .error _ => .error Fault.unwrapFailed
  | Operation.ReadConfigTwoCommand =>
      .ok ({ s with op := Operation.ReadConfigTwoResult 0 },
           [Effect.i2cRead (s.op_len + RESPONSE_COUNT_SIZE + CRC_SIZE)])
  | Operation.ReadConfigTwoResult run =>
      if nakStatus status then
        if run = 10 then
          .ok (s, [])
        else
          .ok ({ s with op := Operation.ReadConfigTwoResult (run + 1) },
               [Effect.i2cRead (s.op_len + RESPONSE_COUNT_SIZE + CRC_SIZE)])
      else
        match status with
        | .error _ => .error Fault.assertFailed
        | .ok _ =>
            let otp_lock := buffer.getD (CONFIG_ZONE_OTP_LOCK - 63) 0
            let config_lock := buffer.getD (CONFIG_ZONE_LOCK_STATUS - 63) 0
            let s1 := { s with op := Operation.Ready }
            let s2 := if otp_lock = 0x00 then { s1 with data_lock := true } else s1
            let s3 := if config_lock = 0x00 then { s2 with config_lock := true } else s2
            .ok ({ s3 with buffer := some buffer }, [])
  | Operation.GenerateEntropyCommand run =>
      if nakStatus status then
        let s1 := { s with buffer := some buffer }
        if run = 10 then
          .ok (s1, if s.entropy_client
                   then [Effect.entropyAvailable (.error ErrorCode.NOACK)] else [])
        else
          let s2 := { s1 with op := Operation.GenerateEntropyCommand (run + 1) }
          let (s3, effs) := send_command s2 COMMAND_OPCODE_RANDOM 0x00 0x0000 0
          .ok (s3, effs)
      else
        .ok ({ s with op := Operation.GenerateEntropyResult 0 },
             [Effect.i2cRead (RESPONSE_COUNT_SIZE + RESPONSE_RANDOM_SIZE + CRC_SIZE)])
  | Operation.GenerateEntropyResult run =>
      if nakStatus status then
        if run = 1000 then
          .ok (s, if s.entropy_client
                  then [Effect.entropyAvailable (.error ErrorCode.NOACK)] else [])
        else
          .ok ({ s with op := Operation.GenerateEntropyResult (run + 1) },
               [Effect.i2cRead (RESPONSE_COUNT_SIZE + RESPONSE_RANDOM_SIZE + CRC_SIZE)])
      else
        let s1 := { s with op := Operation.Ready }
        let pool := (buffer.drop RESPONSE_COUNT_SIZE).take RESPONSE_RANDOM_SIZE
        let s2 := match s1.entropy_buffer with
          | some _ => { s1 with entropy_buffer := some pool }
          | none => s1
        let s3 := { s2 with buffer := some buffer }
        let cb := if s.entropy_client
                  then [Effect.entropyAvailable (.ok ())] else []
        if s.entropy_client && more then
          -- the client asked for more: `self.get()` re-issues a RANDOM command
          let s4 := { s3 with op := Operation.GenerateEntropyCommand 0 }
          let (s5, effs) := send_command s4 COMMAND_OPCODE_RANDOM 0x00 0x0000 0
          .ok (s5, cb ++ Effect.wakeup :: effs)
        else
          .ok (s3, cb)
  | Operation.SetupConfigOne =>
      let s1 := { s with op := Operation.SetupConfigTwo 0, buffer := some buffer }
      let s2 := match s1.buffer with
        | some buf => { s1 with buffer := some (stage4 buf [0x83, 0x20, 0x83, 0x20]) }
        | none => s1
      match writeCmd s2 ZONE_CONFIG (20 / 4) 4 with
      | .ok (s3, effs) => .ok (s3, effs)
      | .error _ => .error Fault.unwrapFailed
  | Operation.SetupConfigTwo run =>
      let s1 := { s with buffer := some buffer }
      if nakStatus status then
        if run = 10 then
          .ok ({ s1 with op := Operation.Ready }, [])
        else
          let s2 := { s1 with op := Operation.SetupConfigTwo (run + 1) }
          match writeCmd s2 ZONE_CONFIG (20 / 4) 4 with
          | .ok (s3, effs) => .ok (s3, effs)
          | .error _ => .error Fault.unwrapFailed
      else
        .ok ({ s1 with op := Operation.Ready }, [])
  | Operation.LockZoneConfig run =>
      if nakStatus status then
        let s1 := { s with buffer := some buffer }
        if run = 30 then
          .ok ({ s1 with op := Operation.Ready }, [])
        else
          let s2 := { s1 with op := Operation.LockZoneConfig (run + 1) }
          let (s3, effs) := send_command s2 COMMAND_OPCODE_LOCK LOCK_MODE_ZONE_CONFIG 0x0000 0
          .ok (s3, effs)
      else
        .ok ({ s with op := Operation.LockResponse 0 },
             [Effect.i2cRead (RESPONSE_COUNT_SIZE + RESPONSE_SIGNAL_SIZE + CRC_SIZE)])
  | Operation.LockResponse run =>
      if nakStatus status then
        if run = 100 then
          .ok ({ s with buffer := some buffer, op := Operation.Ready }, [])
        else
          .ok ({ s with op := Operation.LockResponse (run + 1) },
               [Effect.i2cRead (RESPONSE_COUNT_SIZE + RESPONSE_SIGNAL_SIZE + CRC_SIZE)])
      else
        -- the response byte is checked for diagnostics only
        .ok ({ s with op := Operation.Ready, buffer := some buffer }, [])
  | Operation.CreateKeyPair run slot =>
      if nakStatus status then
        let s1 := { s with buffer := some buffer }
        if run = 10 then
          .ok ({ s1 with op := Operation.Ready }, [])
        else
          let s2 := { s1 with op := Operation.CreateKeyPair (run + 1) slot }
          let (s3, effs) := send_command s2 COMMAND_OPCODE_GENKEY GENKEY_MODE_NEW_PRIVATE slot 0
          .ok (s3, effs)
      else
        .ok ({ s with op := Operation.ReadKeyPair 0 },
             [Effect.i2cRead (RESPONSE_COUNT_SIZE + PUBLIC_KEY_SIZE + CRC_SIZE)])
  | Operation.ReadKeyPair run =>
      if nakStatus status then
        if run = 5000 then
          .ok ({ s with buffer := some buffer, op := Operation.Ready }, [])
        else
          .ok ({ s with op := Operation.ReadKeyPair (run + 1) },
               [Effect.i2cRead (RESPONSE_COUNT_SIZE + PUBLIC_KEY_SIZE + CRC_SIZE)])
      else
        let pk := (buffer.drop RESPONSE_COUNT_SIZE).take PUBLIC_KEY_SIZE
        let s1 := match s.public_key with
          | some _ => { s with public_key := some pk }
          | none => s
        .ok ({ s1 with op := Operation.Ready, buffer := some buffer }, [])
  | Operation.LockDataOtp run =>
      if nakStatus status then
        let s1 := { s with buffer := some buffer }
        if run = 100 then
          .ok ({ s1 with op := Operation.Ready }, [])
        else
          let s2 := { s1 with op := Operation.LockDataOtp (run + 1) }
          let (s3, effs) := send_command s2 COMMAND_OPCODE_LOCK LOCK_MODE_ZONE_DATA_AND_OTP 0x0000 0
          .ok (s3, effs)
      else
        .ok ({ s with op := Operation.LockResponse 0 },
             [Effect.i2cRead (RESPONSE_COUNT_SIZE + RESPONSE_SIGNAL_SIZE + CRC_SIZE)])
  | Operation.LockSlot0 run =>
      if nakStatus status then
        let s1 := { s with buffer := some buffer }
        if run = 100 then
          .ok ({ s1 with op := Operation.Ready }, [])
        else
          let s2 := { s1 with op := Operation.LockSlot0 (run + 1) }
          let (s3, effs) := send_command s2 COMMAND_OPCODE_LOCK LOCK_MODE_SLOT0 0x0000 0
          .ok (s3, effs)
      else
        .ok ({ s with op := Operation.LockResponse 0 },
             [Effect.i2cRead (RESPONSE_COUNT_SIZE + RESPONSE_SIGNAL_SIZE + CRC_SIZE)])

/- ------------------------------------------------------------------ -/
/- Entropy iterator (`Atecc508aRngIter::next`)                         -/
/- ------------------------------------------------------------------ -/

/-- `u32::from_be_bytes`. -/
def u32_from_be_bytes (b0 b1 b2 b3 : Nat) : Nat :=
  ((b0 * 256 + b1) * 256 + b2) * 256 + b3

/-- `Atecc508aRngIter::next`: takes the entropy pool (yielding `none` if
it is absent), decodes the 4 bytes at the current offset big-endian,
advances the offset by 4 (resetting to 0 once it is ≥ 28), and puts the
pool back. -/
def rng_iter_next (s : State) : Option Nat × State :=
  match s.entropy_buffer with
  | none => (none, s)
  | some entropy_buffer =>
      let offset := s.entropy_offset
      let entropy := u32_from_be_bytes
        (entropy_buffer.getD offset 0) (entropy_buffer.getD (offset + 1) 0)
        (entropy_buffer.getD (offset + 2) 0) (entropy_buffer.getD (offset + 3) 0)
      let s1 := if offset ≥ 28
                then { s with entropy_offset := 0 }
                else { s with entropy_offset := offset + 4 }
      (some entropy, s1)

/-- `n` successive pulls of the entropy iterator. -/
def rng_pulls : Nat → State → List (Option Nat) × State
  | 0, s => ([], s)
  | n + 1, s =>
      let p := rng_iter_next s
      let q := rng_pulls n p.2
      (p.1 :: q.1, q.2)

/- ------------------------------------------------------------------ -/
/- Auxiliary definitions for the statements                            -/
/- ------------------------------------------------------------------ -/

/-- The CRC-16 as worded by the spec (§4.1): the register starts at 0;
for each byte, iterate a shifting single-bit mask, eight iterations,
least-significant bit first; `data_bit` is 1 when `byte AND mask` is
nonzero; `crc_bit` is the top bit of the 16-bit register; the register is
shifted left by one; when `data_bit` and `crc_bit` differ the register is
XORed with 0x8005. -/
def crc16_spec (data : List Nat) : Nat :=
  data.foldl
    (fun register byte =>
      (List.range 8).foldl
        (fun register i =>
          let data_bit : Nat := if byte &&& 2 ^ i ≠ 0 then 1 else 0
          let crc_bit := register >>> 15
          let shifted := (register <<< 1) % 65536
          if data_bit ≠ crc_bit then shifted ^^^ 0x8005 else shifted)
        register)
    0

/-- A bus-level NAK completion status (data-phase). -/
def theNak : Except I2cError Unit := Except.error I2cError.dataNak

/-- Iterated completion with a NAK status: `n` consecutive NAK
completions, each handing back the same transport buffer `B`;
accumulates the emitted effects. -/
def nak_iter (B : List Nat) : Nat → State → Except Fault (State × List Effect)
  | 0, s => .ok (s, [])
  | n + 1, s =>
      match command_complete s B theNak false with
      | .error f => .error f
      | .ok (s1, effs) =>
          match nak_iter B n s1 with
          | .error f => .error f
          | .ok (s2, effs2) => .ok (s2, effs ++ effs2)

/-- Whether an effect is a bus transfer (a re-issued request). -/
def is_i2c_effect : Effect → Bool
  | .i2cWrite _ _ => true
  | .i2cRead _ => true
  | _ => false

/-- The bus transfers among a list of effects. -/
def i2c_effects (effs : List Effect) : List Effect :=
  effs.filter is_i2c_effect

/-- A completion result abandons the operation without re-issuing the
request when it is not a panic and its effect trace contains no bus
transfer. -/
def no_reissue (r : Except Fault (State × List Effect)) : Prop :=
  match r with
  | .ok (_, effs) => i2c_effects effs = []
  | .error _ => False

/-- A concrete quiescent driver state used by witnesses and
counterexamples: working buffer held (128 zero bytes), idle, entropy pool
of 32 zero bytes at offset 0, no entropy client, unlocked, all-zero
public-key record. -/
def idleState : State :=
  { buffer := some (List.replicate 128 0), op := Operation.Ready, op_len := 0,
    entropy_buffer := some (List.replicate 32 0), entropy_offset := 0,
    entropy_client := false, config_lock := false, data_lock := false,
    public_key := some (List.replicate 64 0) }

/-- An entry-point result that started operation `o`: the call neither
rejected (the Rust `Result` is `Ok(())`) nor asserted (no panic), and the
new state's active operation is `o`. -/
def started (r : EntryResult) (o : Operation) : Prop :=
  match r with
  | .ok (.ok _, s1, _) => s1.op = o
  | _ => False

/-- The big-endian decoding of the 4 bytes of `pool` starting at offset
`o`. -/
def pool_word (pool : List Nat) (o : Nat) : Nat :=
  u32_from_be_bytes (pool.getD o 0) (pool.getD (o + 1) 0)
    (pool.getD (o + 2) 0) (pool.getD (o + 3) 0)

/- ------------------------------------------------------------------ -/
/- Theorems                                                            -/
/- ------------------------------------------------------------------ -/

theorem crc_byte_eq (byte r : Nat) :
    shift_register_values.foldl (fun crc m => crc_step byte m crc) r =
    (List.range 8).foldl
      (fun register i =>
        let data_bit : Nat := if byte &&& 2 ^ i ≠ 0 then 1 else 0
        let crc_bit := register >>> 15
        let shifted := (register <<< 1) % 65536
        if data_bit ≠ crc_bit then shifted ^^^ 0x8005 else shifted)
      r := by
  have h8 : List.range 8 = [0, 1, 2, 3, 4, 5, 6, 7] := by decide
  rw [h8]
  simp only [shift_register_values, List.foldl_cons, List.foldl_nil]
  norm_num [crc_step, Nat.pos_iff_ne_zero]

/-- C6: `calculate_crc` implements the bit-serial CRC-16 described by the
spec — register starts at 0, eight single-bit-mask iterations per byte,
least-significant bit first, conditional XOR with 0x8005 after the left
shift — and the CRC of the empty input is 0. -/
theorem calculate_crc_implements_spec :
    (∀ data : List Nat, calculate_crc data = crc16_spec data) ∧
    calculate_crc [] = 0 := by
  refine ⟨fun data => ?_, rfl⟩
  unfold calculate_crc crc16_spec
  exact List.foldl_ext _ _ 0 (fun a b _ => crc_byte_eq b a)

/-- C7: each pull of the entropy iterator decodes the 4 bytes at the
current offset big-endian and advances the offset by 4, wrapping to 0
once the offset is ≥ 28; consequently, starting from offset 0, eight
successive pulls yield the big-endian decodings of the eight consecutive
4-byte groups of the pool in original order, and the ninth pull returns
the first group again. -/
theorem rng_iter_big_endian_wraparound (s : State) (pool : List Nat)
    (h1 : s.entropy_buffer = some pool) (h2 : s.entropy_offset = 0) :
    (∀ t : State, ∀ pl : List Nat, t.entropy_buffer = some pl →
      (rng_iter_next t).1 = some (pool_word pl t.entropy_offset) ∧
      (rng_iter_next t).2.entropy_offset =
        (if t.entropy_offset ≥ 28 then 0 else t.entropy_offset + 4)) ∧
    (rng_pulls 9 s).1 =
      [some (pool_word pool 0), some (pool_word pool 4), some (pool_word pool 8),
       some (pool_word pool 12), some (pool_word pool 16), some (pool_word pool 20),
       some (pool_word pool 24), some (pool_word pool 28), some (pool_word pool 0)] := by
  constructor
  · intro t pl hpl
    constructor
    · simp [rng_iter_next, hpl, pool_word, u32_from_be_bytes]
    · by_cases hge : t.entropy_offset ≥ 28 <;>
        simp [rng_iter_next, hpl, hge]
  · simp [rng_pulls, rng_iter_next, h1, h2, pool_word, u32_from_be_bytes]

/-- Witness for C7 at a concrete pool: the bytes 0,1,…,31 decode to the
nine listed words (the ninth pull wraps back to the first group). -/
theorem rng_iter_big_endian_wraparound_witness :
    (rng_pulls 9 { idleState with entropy_buffer := some (List.range 32) }).1 =
      [some 66051, some 67438087, some 134810123, some 202182159, some 269554195,
       some 336926231, some 404298267, some 471670303, some 66051] := by
  have h := (rng_iter_big_endian_wraparound
    { idleState with entropy_buffer := some (List.range 32) }
    (List.range 32) rfl rfl).2
  rw [h]
  decide

/-- C8: `get_public_key` is synchronous (it reads `public_key` and
modifies no driver state, being a pure function of the state) and fails
with `ErrorCode::BUSY` exactly while the stored record is the all-zero
sentinel; otherwise it returns the stored key. -/
theorem get_public_key_busy_iff (s : State) (pk : List Nat)
    (h : s.public_key = some pk) :
    (get_public_key s = .ok (.error ErrorCode.BUSY) ↔
      pk.all (fun x => x == 0) = true) ∧
    (pk.all (fun x => x == 0) = false → get_public_key s = .ok (.ok pk)) := by
  by_cases hall : pk.all (fun x => x == 0) <;>
    simp [get_public_key, h, hall]

/-- Witness for C8: at the initial state the record is the all-zero
sentinel and the call fails with BUSY; with byte 5 set to 1 it returns
the stored key. -/
theorem get_public_key_busy_iff_witness :
    get_public_key idleState = .ok (.error ErrorCode.BUSY) ∧
    get_public_key { idleState with
        public_key := some ((List.replicate 64 0).set 5 1) } =
      .ok (.ok ((List.replicate 64 0).set 5 1)) := by
  constructor
  · exact (get_public_key_busy_iff idleState (List.replicate 64 0) rfl).1.mpr (by decide)
  · exact (get_public_key_busy_iff
      { idleState with public_key := some ((List.replicate 64 0).set 5 1) }
      ((List.replicate 64 0).set 5 1) rfl).2 (by decide)

theorem set_entropy_offset_eta (s : State) (o : Nat) (h : s.entropy_offset = o) :
    ({ s with entropy_offset := o } : State) = s := by
  cases s
  simp_all

theorem rng_pulls_no_wrap (pool : List Nat) :
    ∀ (k j : Nat) (s : State), s.entropy_buffer = some pool →
      s.entropy_offset = 4 * j → j + k ≤ 7 →
      (rng_pulls k s).2 = { s with entropy_offset := 4 * (j + k) } := by
  intro k
  induction k with
  | zero =>
      intro j s h1 h2 hb
      simp only [rng_pulls]
      rw [set_entropy_offset_eta s (4 * (j + 0)) (by omega)]
  | succ k ih =>
      intro j s h1 h2 hb
      have hlt : ¬ s.entropy_offset ≥ 28 := by omega
      have hstep : (rng_iter_next s).2 = { s with entropy_offset := 4 * (j + 1) } := by
        rw [show 4 * (j + 1) = s.entropy_offset + 4 by omega]
        simp [rng_iter_next, h1, hlt]
      show (rng_pulls k (rng_iter_next s).2).2 = _
      rw [hstep, ih (j + 1) _ (by simp [h1]) (by simp) (by omega),
        show 4 * (j + 1 + k) = 4 * (j + (k + 1)) by ring]

/-- Reduction of the `GenerateEntropyResult` success arm: the pool is
refreshed from bytes 1..33 of the response, the buffer is reclaimed, the
machine goes idle — and `entropy_offset` is not touched. -/
theorem fetch_success_state (s : State) (B : List Nat) (run : Nat) (pool : List Nat)
    (hop : s.op = Operation.GenerateEntropyResult run)
    (hbuf : s.entropy_buffer = some pool) :
    command_complete s B (.ok ()) false =
      .ok ({ s with op := Operation.Ready,
                    entropy_buffer := some ((B.drop 1).take 32),
                    buffer := some B },
           if s.entropy_client then [Effect.entropyAvailable (.ok ())] else []) := by
  simp [command_complete, hop, nakStatus, hbuf,
    RESPONSE_COUNT_SIZE, RESPONSE_RANDOM_SIZE]

/-- C9: a successful entropy fetch refreshes the 32-byte pool in place
(bytes 1..33 of the response) but leaves the word offset unchanged; the
offset is reset only by the iterator wraparound.  Hence after `k < 8`
pulls (offset `4 * k`) and a completed fetch, the next pull decodes the
new pool at bytes `4k..4k+4`, not at 0. -/
theorem fetch_preserves_offset (s : State) (pool B : List Nat) (k run : Nat)
    (h1 : s.entropy_buffer = some pool) (h2 : s.entropy_offset = 0)
    (h3 : s.op = Operation.GenerateEntropyResult run) (h4 : k < 8) :
    (rng_pulls k s).2.entropy_offset = 4 * k ∧
    ∃ s2 effs,
      command_complete (rng_pulls k s).2 B (.ok ()) false = .ok (s2, effs) ∧
      s2.entropy_offset = 4 * k ∧
      s2.entropy_buffer = some ((B.drop 1).take 32) ∧
      (rng_iter_next s2).1 = some (pool_word ((B.drop 1).take 32) (4 * k)) := by
  have hs1 : (rng_pulls k s).2 = { s with entropy_offset := 4 * k } := by
    have h := rng_pulls_no_wrap pool k 0 s h1 (by omega) (by omega)
    simpa using h
  rw [hs1]
  refine ⟨rfl, _, _,
    fetch_success_state { s with entropy_offset := 4 * k } B run pool
      (by simp [h3]) (by simp [h1]), rfl, rfl, ?_⟩
  simp [rng_iter_next, pool_word, u32_from_be_bytes]

/-- Witness for C9 at `k = 3`: after three pulls the offset is 12, a
completed fetch installs the new pool and keeps the offset at 12, and the
next pull decodes bytes 12..16 of the new pool. -/
theorem fetch_preserves_offset_witness :
    (rng_pulls 3 { idleState with op := Operation.GenerateEntropyResult 0 }).2.entropy_offset
        = 12 ∧
    ∃ s2 effs,
      command_complete
        (rng_pulls 3 { idleState with op := Operation.GenerateEntropyResult 0 }).2
        (List.range 35) (.ok ()) false = .ok (s2, effs) ∧
      s2.entropy_offset = 12 ∧
      s2.entropy_buffer = some (((List.range 35).drop 1).take 32) ∧
      (rng_iter_next s2).1 =
        some (pool_word (((List.range 35).drop 1).take 32) 12) := by
  have h := fetch_preserves_offset
    { idleState with op := Operation.GenerateEntropyResult 0 }
    (List.replicate 32 0) (List.range 35) 3 0 rfl rfl rfl (by decide)
  simpa using h

/-- C10: invoking `command_complete` while the operation is `Ready`
(idle) hits `unreachable!` and panics; for every non-idle operation the
dispatch takes a defined branch (it may panic in an `assert` or
`unwrap`, but never reaches the `unreachable!`). -/
theorem command_complete_ready_unreachable :
    (∀ (s : State) (B : List Nat) (status : Except I2cError Unit) (more : Bool),
       s.op = Operation.Ready →
       command_complete s B status more = .error Fault.unreachableHit) ∧
    (∀ (s : State) (B : List Nat) (status : Except I2cError Unit) (more : Bool),
       s.op ≠ Operation.Ready →
       command_complete s B status more ≠ .error Fault.unreachableHit) := by
  constructor
  · intro s B status more h
    simp [command_complete, h]
  · intro s B status more h
    cases hop : s.op <;>
      first
      | exact absurd hop h
      | (simp only [command_complete, hop, readCmd, writeCmd, send_command]
         repeat' split
         all_goals simp)

/-- Witness for C10: at the idle state the completion panics with the
`unreachable!`, and at a concrete non-idle state it does not. -/
theorem command_complete_ready_unreachable_witness :
    command_complete idleState [] theNak false = .error Fault.unreachableHit ∧
    command_complete { idleState with op := Operation.ReadKeyPair 0 } [] theNak false ≠
      .error Fault.unreachableHit := by
  constructor
  · exact command_complete_ready_unreachable.1 idleState [] theNak false rfl
  · exact command_complete_ready_unreachable.2
      { idleState with op := Operation.ReadKeyPair 0 } [] theNak false (by simp)

/-- C1 counterexample: `setup_tock_config`, called on a concrete state
whose operation is `ReadKeyPair 0` (non-idle, working buffer on loan),
neither rejects nor asserts: it returns `Ok(())`, silently overwrites the
in-flight operation with `SetupConfigOne`, and issues no bus write. -/
theorem entry_precondition_counterexample :
    ({ idleState with op := Operation.ReadKeyPair 0, buffer := none } : State).op ≠
      Operation.Ready ∧
    setup_tock_config { idleState with op := Operation.ReadKeyPair 0, buffer := none } =
      .ok (.ok (),
        { idleState with op := Operation.SetupConfigOne, buffer := none, op_len := 4 },
        [Effect.wakeup]) := by
  constructor
  · simp
  · rfl

/-- C1 amended: only `read_config_zone` enforces the idle precondition
(it asserts and panics when an operation is active, and proceeds when
idle); the other operation-starting entry points — `setup_tock_config`,
`lock_zone_config`, `lock_data_and_otp`, `lock_slot0`, `create_key_pair`
and the entropy `get` — perform no check: for every state, idle or not,
they return `Ok(())` and unconditionally overwrite the active operation
with their own starting state. -/
theorem entry_precondition_amended :
    (∀ s : State, s.op ≠ Operation.Ready →
       read_config_zone s = .error Fault.assertFailed) ∧
    (∀ s : State, s.op = Operation.Ready →
       started (read_config_zone s) Operation.ReadConfigZeroCommand) ∧
    (∀ s : State, started (setup_tock_config s) Operation.SetupConfigOne) ∧
    (∀ s : State, started (lock_zone_config s) (Operation.LockZoneConfig 0)) ∧
    (∀ s : State, started (lock_data_and_otp s) (Operation.LockDataOtp 0)) ∧
    (∀ s : State, started (lock_slot0 s) (Operation.LockSlot0 0)) ∧
    (∀ (s : State) (slot : Nat),
       started (create_key_pair s slot) (Operation.CreateKeyPair 0 slot)) ∧
    (∀ s : State, started (entropy_get s) (Operation.GenerateEntropyCommand 0)) := by
  refine ⟨?_, ?_, ?_, ?_, ?_, ?_, ?_, ?_⟩
  · intro s h
    simp [read_config_zone, h]
  · intro s h
    cases hb : s.buffer <;>
      simp [read_config_zone, h, readCmd, send_command, hb, started,
        CONFIG_ZONE_READ_SIZE]
  · intro s
    cases hb : s.buffer <;>
      simp [setup_tock_config, writeCmd, send_command, hb, started]
  · intro s
    cases hb : s.buffer <;>
      simp [lock_zone_config, send_command, hb, started]
  · intro s
    cases hb : s.buffer <;>
      simp [lock_data_and_otp, send_command, hb, started]
  · intro s
    cases hb : s.buffer <;>
      simp [lock_slot0, send_command, hb, started]
  · intro s slot
    cases hb : s.buffer <;>
      simp [create_key_pair, send_command, hb, started]
  · intro s
    cases hb : s.buffer <;>
      simp [entropy_get, send_command, hb, started]

/-- Witness for C1 amended, at a concrete non-idle state: the config-zone
read asserts, while the setup helper silently proceeds. -/
theorem entry_precondition_amended_witness :
    ({ idleState with op := Operation.LockResponse 5 } : State).op ≠ Operation.Ready ∧
    read_config_zone { idleState with op := Operation.LockResponse 5 } =
      .error Fault.assertFailed ∧
    started (setup_tock_config { idleState with op := Operation.LockResponse 5 })
      Operation.SetupConfigOne := by
  refine ⟨by simp, ?_, ?_⟩
  · exact entry_precondition_amended.1 _ (by simp)
  · exact entry_precondition_amended.2.2.1 _

theorem staged_payload_stage4 (buf d : List Nat) (h : 6 ≤ buf.length)
    (hd : d.length = 4) :
    staged_payload (stage4 buf d) 4 = d := by
  have hlen : (buf.take 6).length = 6 := by
    simp [List.length_take]
    omega
  have hget : ∀ i, i < 4 → (stage4 buf d).getD (6 + i) 0 = d.getD i 0 := by
    intro i hi
    unfold stage4
    rw [show ATRCC508A_PROTOCOL_FIELD_DATA = 6 from rfl, List.append_assoc,
      List.getD_append_right _ _ _ _ (by omega),
      hlen, Nat.add_sub_cancel_left,
      List.getD_append _ _ _ _ (by omega)]
  have h4 : List.range 4 = [0, 1, 2, 3] := by decide
  unfold staged_payload
  rw [show ATRCC508A_PROTOCOL_FIELD_DATA = 6 from rfl, h4]
  simp only [List.map_cons, List.map_nil,
    hget 0 (by omega), hget 1 (by omega), hget 2 (by omega), hget 3 (by omega)]
  rcases d with _ | ⟨a, _ | ⟨b, _ | ⟨c, _ | ⟨e, rest⟩⟩⟩⟩ <;> simp_all

/-- C3 counterexample: from the idle state with the working buffer held,
the single public `setup_tock_config` call's first (and only immediate)
bus write carries the key-config payload `{0x33, 0x00, 0x33, 0x00}` at
word offset 24 — not, as claimed, the slot-config payload
`{0x83, 0x20, 0x83, 0x20}` at word offset 5 (param2 little-endian lives
at frame offsets 4–5). -/
theorem setup_order_counterexample :
    setup_tock_config idleState =
      .ok (.ok (),
        { idleState with op := Operation.SetupConfigOne, buffer := none, op_len := 4 },
        [Effect.wakeup,
         Effect.i2cWrite (mkFrame COMMAND_OPCODE_WRITE 0 24 [0x33, 0x00, 0x33, 0x00]) 12]) ∧
    (mkFrame COMMAND_OPCODE_WRITE 0 24 [0x33, 0x00, 0x33, 0x00]).getD 4 0 = 24 ∧
    ¬ ((mkFrame COMMAND_OPCODE_WRITE 0 24 [0x33, 0x00, 0x33, 0x00]).getD 4 0 = 5 ∧
       ((mkFrame COMMAND_OPCODE_WRITE 0 24 [0x33, 0x00, 0x33, 0x00]).drop 6).take 4 =
         [0x83, 0x20, 0x83, 0x20]) := by
  refine ⟨by rfl, by rfl, ?_⟩
  intro h
  exact absurd h.1 (by decide)

/-- C3 amended: the single public setup call performs an atomic two-write
sequence, but in the opposite order from the claim: it first writes the
4 key-config bytes `{0x33, 0x00, 0x33, 0x00}` at word offset 24
(`96 / 4`), and on that write's completion (chained through
`SetupConfigOne`, with no status check) writes the 4 slot-config bytes
`{0x83, 0x20, 0x83, 0x20}` at word offset 5 (`20 / 4`). -/
theorem setup_two_write_sequence :
    (∀ (s : State) (buf : List Nat), s.buffer = some buf → 6 ≤ buf.length →
      setup_tock_config s =
        .ok (.ok (),
          { s with op := Operation.SetupConfigOne, op_len := 4, buffer := none },
          [Effect.wakeup,
           Effect.i2cWrite
             (mkFrame COMMAND_OPCODE_WRITE 0 24 [0x33, 0x00, 0x33, 0x00]) 12])) ∧
    (∀ (t : State) (B : List Nat) (status : Except I2cError Unit) (more : Bool),
      t.op = Operation.SetupConfigOne → 6 ≤ B.length →
      command_complete t B status more =
        .ok ({ t with op := Operation.SetupConfigTwo 0, op_len := 4, buffer := none },
             [Effect.i2cWrite
                (mkFrame COMMAND_OPCODE_WRITE 0 5 [0x83, 0x20, 0x83, 0x20]) 12])) := by
  constructor
  · intro s buf hb hlen
    simp [setup_tock_config, writeCmd, send_command, hb,
      staged_payload_stage4 buf [0x33, 0x00, 0x33, 0x00] hlen (by decide),
      ZONE_CONFIG, ATRCC508A_PROTOCOL_OVERHEAD, ATRCC508A_PROTOCOL_FIELD_SIZE_COMMAND,
      ATRCC508A_PROTOCOL_FIELD_SIZE_LENGTH, ATRCC508A_PROTOCOL_FIELD_SIZE_OPCODE,
      ATRCC508A_PROTOCOL_FIELD_SIZE_PARAM1, ATRCC508A_PROTOCOL_FIELD_SIZE_PARAM2,
      ATRCC508A_PROTOCOL_FIELD_SIZE_CRC, CRC_SIZE]
  · intro t B status more hop hlen
    simp [command_complete, hop, writeCmd, send_command,
      staged_payload_stage4 B [0x83, 0x20, 0x83, 0x20] hlen (by decide),
      ZONE_CONFIG, ATRCC508A_PROTOCOL_OVERHEAD, ATRCC508A_PROTOCOL_FIELD_SIZE_COMMAND,
      ATRCC508A_PROTOCOL_FIELD_SIZE_LENGTH, ATRCC508A_PROTOCOL_FIELD_SIZE_OPCODE,
      ATRCC508A_PROTOCOL_FIELD_SIZE_PARAM1, ATRCC508A_PROTOCOL_FIELD_SIZE_PARAM2,
      ATRCC508A_PROTOCOL_FIELD_SIZE_CRC, CRC_SIZE]

set_option maxRecDepth 4000 in
/-- Witness for C3 amended at the concrete idle state: the two writes,
with their CRCs, as they appear on the wire. -/
theorem setup_two_write_sequence_witness :
    setup_tock_config idleState =
      .ok (.ok (),
        { idleState with op := Operation.SetupConfigOne, op_len := 4, buffer := none },
        [Effect.wakeup,
         Effect.i2cWrite [3, 11, 18, 0, 24, 0, 51, 0, 51, 0, 145, 215] 12]) ∧
    command_complete { idleState with op := Operation.SetupConfigOne, buffer := none }
        (List.replicate 128 0) (.ok ()) false =
      .ok ({ idleState with op := Operation.SetupConfigTwo 0, op_len := 4, buffer := none },
           [Effect.i2cWrite [3, 11, 18, 0, 5, 0, 131, 32, 131, 32, 104, 221] 12]) := by
  constructor
  · rw [setup_two_write_sequence.1 idleState (List.replicate 128 0) rfl (by decide)]
    decide
  · rw [setup_two_write_sequence.2
      { idleState with op := Operation.SetupConfigOne, buffer := none }
      (List.replicate 128 0) (.ok ()) false rfl (by decide)]
    decide

theorem mkFrame_parts (o p1 p2 : Nat) (pl : List Nat) :
    (mkFrame o p1 p2 pl).length = pl.length + 8 ∧
    ((mkFrame o p1 p2 pl).drop 1).take (pl.length + 5) =
      [(pl.length + 7) % 256, o, p1, p2 % 256, (p2 / 256) % 256] ++ pl ∧
    (mkFrame o p1 p2 pl).getD 1 0 = (pl.length + 7) % 256 ∧
    (mkFrame o p1 p2 pl).drop (pl.length + 6) =
      [calculate_crc ([(pl.length + 7) % 256, o, p1, p2 % 256, (p2 / 256) % 256] ++ pl) % 256,
       calculate_crc ([(pl.length + 7) % 256, o, p1, p2 % 256, (p2 / 256) % 256] ++ pl)
         / 256 % 256] := by
  have hY : ([(pl.length + 7) % 256, o, p1, p2 % 256, (p2 / 256) % 256] ++ pl).length =
      pl.length + 5 := by
    simp
  have hframe : mkFrame o p1 p2 pl =
      3 :: (([(pl.length + 7) % 256, o, p1, p2 % 256, (p2 / 256) % 256] ++ pl) ++
        [calculate_crc ([(pl.length + 7) % 256, o, p1, p2 % 256, (p2 / 256) % 256] ++ pl) % 256,
         calculate_crc ([(pl.length + 7) % 256, o, p1, p2 % 256, (p2 / 256) % 256] ++ pl)
           / 256 % 256]) := by
    unfold mkFrame
    simp [ATRCC508A_PROTOCOL_OVERHEAD, ATRCC508A_PROTOCOL_FIELD_SIZE_COMMAND,
      ATRCC508A_PROTOCOL_FIELD_SIZE_LENGTH, ATRCC508A_PROTOCOL_FIELD_SIZE_OPCODE,
      ATRCC508A_PROTOCOL_FIELD_SIZE_PARAM1, ATRCC508A_PROTOCOL_FIELD_SIZE_PARAM2,
      ATRCC508A_PROTOCOL_FIELD_SIZE_CRC, CRC_SIZE, WORD_ADDRESS_VALUE_COMMAND]
  refine ⟨?_, ?_, ?_, ?_⟩
  · rw [hframe]
    simp
  · rw [hframe]
    simp only [List.drop_succ_cons, List.drop_zero]
    exact List.take_left' hY
  · rw [hframe]
    rfl
  · rw [hframe]
    rw [show pl.length + 6 = (pl.length + 5) + 1 by omega]
    simp only [List.drop_succ_cons]
    rw [show pl.length + 5 = ([(pl.length + 7) % 256, o, p1, p2 % 256, (p2 / 256) % 256]
      ++ pl).length from hY.symm]
    exact List.drop_left _ _

/-- C5: with the working buffer held, `send_command(opcode, param1,
param2, len)` issues exactly one non-blocking transport write, of
`len + 8` bytes, of the frame built from the staged payload; the frame's
length byte (offset 1) equals the total frame length minus one (only the
leading word-address byte is excluded); and the frame's trailing 2-byte
little-endian CRC field equals the CRC-16 over exactly the span from the
length byte through the end of the payload. -/
theorem send_command_frame_invariants (s : State) (buf : List Nat)
    (opcode param1 param2 len : Nat)
    (hb : s.buffer = some buf) (hlen : len + 8 ≤ 256) :
    send_command s opcode param1 param2 len =
      ({ s with buffer := none },
       [Effect.i2cWrite (mkFrame opcode param1 param2 (staged_payload buf len))
          (len + 8)]) ∧
    (mkFrame opcode param1 param2 (staged_payload buf len)).length = len + 8 ∧
    (mkFrame opcode param1 param2 (staged_payload buf len)).getD 1 0 =
      (mkFrame opcode param1 param2 (staged_payload buf len)).length - 1 ∧
    (mkFrame opcode param1 param2 (staged_payload buf len)).drop (len + 6) =
      [calculate_crc
         (((mkFrame opcode param1 param2 (staged_payload buf len)).drop 1).take (len + 5))
           % 256,
       calculate_crc
         (((mkFrame opcode param1 param2 (staged_payload buf len)).drop 1).take (len + 5))
           / 256 % 256] := by
  have hpl : (staged_payload buf len).length = len := by
    simp [staged_payload]
  have hp := mkFrame_parts opcode param1 param2 (staged_payload buf len)
  rw [hpl] at hp
  refine ⟨?_, hp.1, ?_, ?_⟩
  · simp [send_command, hb, ATRCC508A_PROTOCOL_OVERHEAD,
      ATRCC508A_PROTOCOL_FIELD_SIZE_COMMAND, ATRCC508A_PROTOCOL_FIELD_SIZE_LENGTH,
      ATRCC508A_PROTOCOL_FIELD_SIZE_OPCODE, ATRCC508A_PROTOCOL_FIELD_SIZE_PARAM1,
      ATRCC508A_PROTOCOL_FIELD_SIZE_PARAM2, ATRCC508A_PROTOCOL_FIELD_SIZE_CRC, CRC_SIZE]
  · rw [hp.1, hp.2.2.1, Nat.mod_eq_of_lt (by omega)]
    omega
  · rw [hp.2.1, hp.2.2.2]

set_option maxRecDepth 4000 in
/-- Witness for C5: the READ-config frame from the idle state, with its
length byte 7 and CRC bytes 9, 173. -/
theorem send_command_frame_invariants_witness :
    send_command idleState COMMAND_OPCODE_READ 128 0 0 =
      ({ idleState with buffer := none },
       [Effect.i2cWrite [3, 7, 2, 128, 0, 0, 9, 173] 8]) := by
  have h := (send_command_frame_invariants idleState (List.replicate 128 0)
    COMMAND_OPCODE_READ 128 0 0 rfl (by decide)).1
  rw [h]
  decide

/-- C2 (code bug): four retry-ceiling paths do not restore the machine.
At the `ReadConfigZeroResult` and `ReadConfigTwoResult` ceilings (run =
10) the handler returns with the operation unchanged (non-idle) and the
working buffer still on loan (leaked); at the `GenerateEntropyResult`
ceiling (run = 1000) the failure is delivered to the entropy client but
again the buffer is leaked and the machine stays non-idle; at the
`GenerateEntropyCommand` ceiling (run = 10) the buffer is reclaimed but
the operation stays non-idle.  (The remaining seven ceiling paths do
reclaim the buffer and return to idle.) -/
theorem retry_ceiling_reclaim_bug :
    (command_complete
        { idleState with op := Operation.ReadConfigZeroResult 10, buffer := none, op_len := 32 }
        (List.replicate 35 0) theNak false =
      .ok ({ idleState with op := Operation.ReadConfigZeroResult 10, buffer := none,
                            op_len := 32 }, []) ∧
      Operation.ReadConfigZeroResult 10 ≠ Operation.Ready) ∧
    (command_complete
        { idleState with op := Operation.ReadConfigTwoResult 10, buffer := none, op_len := 32 }
        (List.replicate 35 0) theNak false =
      .ok ({ idleState with op := Operation.ReadConfigTwoResult 10, buffer := none,
                            op_len := 32 }, []) ∧
      Operation.ReadConfigTwoResult 10 ≠ Operation.Ready) ∧
    (command_complete
        { idleState with op := Operation.GenerateEntropyResult 1000, buffer := none,
                         entropy_client := true }
        (List.replicate 35 0) theNak false =
      .ok ({ idleState with op := Operation.GenerateEntropyResult 1000, buffer := none,
                            entropy_client := true },
           [Effect.entropyAvailable (.error ErrorCode.NOACK)]) ∧
      Operation.GenerateEntropyResult 1000 ≠ Operation.Ready) ∧
    (command_complete
        { idleState with op := Operation.GenerateEntropyCommand 10, buffer := none,
                         entropy_client := true }
        (List.replicate 35 0) theNak false =
      .ok ({ idleState with op := Operation.GenerateEntropyCommand 10,
                            buffer := some (List.replicate 35 0), entropy_client := true },
           [Effect.entropyAvailable (.error ErrorCode.NOACK)]) ∧
      Operation.GenerateEntropyCommand 10 ≠ Operation.Ready) := by
  refine ⟨⟨by rfl, by simp⟩, ⟨by rfl, by simp⟩, ⟨by rfl, by simp⟩, ⟨by rfl, by simp⟩⟩

theorem state_eta_op_buffer (s : State) (o : Operation) (h1 : s.op = o)
    (h2 : s.buffer = none) :
    ({ s with op := o, buffer := none } : State) = s := by
  cases s
  simp_all

theorem nak_step_rcz (B : List Nat) (L : Nat) (s : State) (n : Nat)
    (hop : s.op = Operation.ReadConfigZeroResult n) (hbuf : s.buffer = none)
    (hL : s.op_len = L) (hn : n < 10) :
    command_complete s B theNak false =
      .ok ({ s with op := Operation.ReadConfigZeroResult (n + 1), buffer := none },
           [Effect.i2cRead (L + RESPONSE_COUNT_SIZE + CRC_SIZE)]) := by
  have hne : n ≠ 10 := by omega
  cases s
  simp_all [command_complete, nakStatus, theNak]

theorem nak_step_rct (B : List Nat) (L : Nat) (s : State) (n : Nat)
    (hop : s.op = Operation.ReadConfigTwoResult n) (hbuf : s.buffer = none)
    (hL : s.op_len = L) (hn : n < 10) :
    command_complete s B theNak false =
      .ok ({ s with op := Operation.ReadConfigTwoResult (n + 1), buffer := none },
           [Effect.i2cRead (L + RESPONSE_COUNT_SIZE + CRC_SIZE)]) := by
  have hne : n ≠ 10 := by omega
  cases s
  simp_all [command_complete, nakStatus, theNak]

theorem nak_step_gec (B : List Nat) (L : Nat) (s : State) (n : Nat)
    (hop : s.op = Operation.GenerateEntropyCommand n) (hbuf : s.buffer = none)
    (hL : s.op_len = L) (hn : n < 10) :
    command_complete s B theNak false =
      .ok ({ s with op := Operation.GenerateEntropyCommand (n + 1), buffer := none },
           [Effect.i2cWrite (mkFrame COMMAND_OPCODE_RANDOM 0 0 (staged_payload B 0)) 8]) := by
  have hne : n ≠ 10 := by omega
  cases s
  simp_all [command_complete, nakStatus, theNak, send_command,
    ATRCC508A_PROTOCOL_OVERHEAD, ATRCC508A_PROTOCOL_FIELD_SIZE_COMMAND,
    ATRCC508A_PROTOCOL_FIELD_SIZE_LENGTH, ATRCC508A_PROTOCOL_FIELD_SIZE_OPCODE,
    ATRCC508A_PROTOCOL_FIELD_SIZE_PARAM1, ATRCC508A_PROTOCOL_FIELD_SIZE_PARAM2,
    ATRCC508A_PROTOCOL_FIELD_SIZE_CRC, CRC_SIZE]

theorem nak_step_ger (B : List Nat) (L : Nat) (s : State) (n : Nat)
    (hop : s.op = Operation.GenerateEntropyResult n) (hbuf : s.buffer = none)
    (hL : s.op_len = L) (hn : n < 1000) :
    command_complete s B theNak false =
      .ok ({ s with op := Operation.GenerateEntropyResult (n + 1), buffer := none },
           [Effect.i2cRead (RESPONSE_COUNT_SIZE + RESPONSE_RANDOM_SIZE + CRC_SIZE)]) := by
  have hne : n ≠ 1000 := by omega
  cases s
  simp_all [command_complete, nakStatus, theNak]

theorem nak_step_sct (B : List Nat) (s : State) (n : Nat)
    (hop : s.op = Operation.SetupConfigTwo n) (hbuf : s.buffer = none)
    (hL : s.op_len = 4) (hn : n < 10) :
    command_complete s B theNak false =
      .ok ({ s with op := Operation.SetupConfigTwo (n + 1), buffer := none },
           [Effect.i2cWrite (mkFrame COMMAND_OPCODE_WRITE 0 5 (staged_payload B 4)) 12]) := by
  have hne : n ≠ 10 := by omega
  cases s
  simp_all [command_complete, nakStatus, theNak, send_command, writeCmd, ZONE_CONFIG,
    ATRCC508A_PROTOCOL_OVERHEAD, ATRCC508A_PROTOCOL_FIELD_SIZE_COMMAND,
    ATRCC508A_PROTOCOL_FIELD_SIZE_LENGTH, ATRCC508A_PROTOCOL_FIELD_SIZE_OPCODE,
    ATRCC508A_PROTOCOL_FIELD_SIZE_PARAM1, ATRCC508A_PROTOCOL_FIELD_SIZE_PARAM2,
    ATRCC508A_PROTOCOL_FIELD_SIZE_CRC, CRC_SIZE]

theorem nak_step_lzc (B : List Nat) (L : Nat) (s : State) (n : Nat)
    (hop : s.op = Operation.LockZoneConfig n) (hbuf : s.buffer = none)
    (hL : s.op_len = L) (hn : n < 30) :
    command_complete s B theNak false =
      .ok ({ s with op := Operation.LockZoneConfig (n + 1), buffer := none },
           [Effect.i2cWrite
              (mkFrame COMMAND_OPCODE_LOCK LOCK_MODE_ZONE_CONFIG 0 (staged_payload B 0))
              8]) := by
  have hne : n ≠ 30 := by omega
  cases s
  simp_all [command_complete, nakStatus, theNak, send_command,
    ATRCC508A_PROTOCOL_OVERHEAD, ATRCC508A_PROTOCOL_FIELD_SIZE_COMMAND,
    ATRCC508A_PROTOCOL_FIELD_SIZE_LENGTH, ATRCC508A_PROTOCOL_FIELD_SIZE_OPCODE,
    ATRCC508A_PROTOCOL_FIELD_SIZE_PARAM1, ATRCC508A_PROTOCOL_FIELD_SIZE_PARAM2,
    ATRCC508A_PROTOCOL_FIELD_SIZE_CRC, CRC_SIZE]

theorem nak_step_lr (B : List Nat) (L : Nat) (s : State) (n : Nat)
    (hop : s.op = Operation.LockResponse n) (hbuf : s.buffer = none)
    (hL : s.op_len = L) (hn : n < 100) :
    command_complete s B theNak false =
      .ok ({ s with op := Operation.LockResponse (n + 1), buffer := none },
           [Effect.i2cRead (RESPONSE_COUNT_SIZE + RESPONSE_SIGNAL_SIZE + CRC_SIZE)]) := by
  have hne : n ≠ 100 := by omega
  cases s
  simp_all [command_complete, nakStatus, theNak]

theorem nak_step_ckp (B : List Nat) (L : Nat) (slot : Nat) (s : State) (n : Nat)
    (hop : s.op = Operation.CreateKeyPair n slot) (hbuf : s.buffer = none)
    (hL : s.op_len = L) (hn : n < 10) :
    command_complete s B theNak false =
      .ok ({ s with op := Operation.CreateKeyPair (n + 1) slot, buffer := none },
           [Effect.i2cWrite
              (mkFrame COMMAND_OPCODE_GENKEY GENKEY_MODE_NEW_PRIVATE slot
                (staged_payload B 0)) 8]) := by
  have hne : n ≠ 10 := by omega
  cases s
  simp_all [command_complete, nakStatus, theNak, send_command,
    ATRCC508A_PROTOCOL_OVERHEAD, ATRCC508A_PROTOCOL_FIELD_SIZE_COMMAND,
    ATRCC508A_PROTOCOL_FIELD_SIZE_LENGTH, ATRCC508A_PROTOCOL_FIELD_SIZE_OPCODE,
    ATRCC508A_PROTOCOL_FIELD_SIZE_PARAM1, ATRCC508A_PROTOCOL_FIELD_SIZE_PARAM2,
    ATRCC508A_PROTOCOL_FIELD_SIZE_CRC, CRC_SIZE]

theorem nak_step_rkp (B : List Nat) (L : Nat) (s : State) (n : Nat)
    (hop : s.op = Operation.ReadKeyPair n) (hbuf : s.buffer = none)
    (hL : s.op_len = L) (hn : n < 5000) :
    command_complete s B theNak false =
      .ok ({ s with op := Operation.ReadKeyPair (n + 1), buffer := none },
           [Effect.i2cRead (RESPONSE_COUNT_SIZE + PUBLIC_KEY_SIZE + CRC_SIZE)]) := by
  have hne : n ≠ 5000 := by omega
  cases s
  simp_all [command_complete, nakStatus, theNak]

theorem nak_step_ldo (B : List Nat) (L : Nat) (s : State) (n : Nat)
    (hop : s.op = Operation.LockDataOtp n) (hbuf : s.buffer = none)
    (hL : s.op_len = L) (hn : n < 100) :
    command_complete s B theNak false =
      .ok ({ s with op := Operation.LockDataOtp (n + 1), buffer := none },
           [Effect.i2cWrite
              (mkFrame COMMAND_OPCODE_LOCK LOCK_MODE_ZONE_DATA_AND_OTP 0
                (staged_payload B 0)) 8]) := by
  have hne : n ≠ 100 := by omega
  cases s
  simp_all [command_complete, nakStatus, theNak, send_command,
    ATRCC508A_PROTOCOL_OVERHEAD, ATRCC508A_PROTOCOL_FIELD_SIZE_COMMAND,
    ATRCC508A_PROTOCOL_FIELD_SIZE_LENGTH, ATRCC508A_PROTOCOL_FIELD_SIZE_OPCODE,
    ATRCC508A_PROTOCOL_FIELD_SIZE_PARAM1, ATRCC508A_PROTOCOL_FIELD_SIZE_PARAM2,
    ATRCC508A_PROTOCOL_FIELD_SIZE_CRC, CRC_SIZE]

theorem nak_step_ls0 (B : List Nat) (L : Nat) (s : State) (n : Nat)
    (hop : s.op = Operation.LockSlot0 n) (hbuf : s.buffer = none)
    (hL : s.op_len = L) (hn : n < 100) :
    command_complete s B theNak false =
      .ok ({ s with op := Operation.LockSlot0 (n + 1), buffer := none },
           [Effect.i2cWrite
              (mkFrame COMMAND_OPCODE_LOCK LOCK_MODE_SLOT0 0 (staged_payload B 0)) 8]) := by
  have hne : n ≠ 100 := by omega
  cases s
  simp_all [command_complete, nakStatus, theNak, send_command,
    ATRCC508A_PROTOCOL_OVERHEAD, ATRCC508A_PROTOCOL_FIELD_SIZE_COMMAND,
    ATRCC508A_PROTOCOL_FIELD_SIZE_LENGTH, ATRCC508A_PROTOCOL_FIELD_SIZE_OPCODE,
    ATRCC508A_PROTOCOL_FIELD_SIZE_PARAM1, ATRCC508A_PROTOCOL_FIELD_SIZE_PARAM2,
    ATRCC508A_PROTOCOL_FIELD_SIZE_CRC, CRC_SIZE]

theorem nak_iter_replicate (B : List Nat) (mk : Nat → Operation) (req : Effect)
    (ceil L : Nat)
    (hstep : ∀ (s : State) (n : Nat), s.op = mk n → s.buffer = none → s.op_len = L →
      n < ceil →
      command_complete s B theNak false =
        .ok ({ s with op := mk (n + 1), buffer := none }, [req])) :
    ∀ (N n : Nat) (s : State), s.op = mk n → s.buffer = none → s.op_len = L →
      n + N ≤ ceil →
      nak_iter B N s = .ok ({ s with op := mk (n + N), buffer := none },
        List.replicate N req) := by
  intro N
  induction N with
  | zero =>
      intro n s hop hbuf hL hb
      rw [show n + 0 = n from rfl, state_eta_op_buffer s (mk n) hop hbuf]
      simp [nak_iter]
  | succ N ih =>
      intro n s hop hbuf hL hb
      have h1 := hstep s n hop hbuf hL (by omega)
      have h2 := ih (n + 1) { s with op := mk (n + 1), buffer := none }
        (by simp) (by simp) (by simp [hL]) (by omega)
      rw [show n + 1 + N = n + (N + 1) by omega] at h2
      simp only [nak_iter, h1, h2]
      simp [List.replicate_succ]

/-- C4: for every retrying phase and every `N` up to that phase's
ceiling, `N` consecutive bus-level NAK completions (each handing back the
same transport buffer `B`) cause exactly `N` identical re-issued requests
(the same read length, or the same command frame) with the retry counter
incremented each time; and a NAK arriving with the counter exactly at the
ceiling re-issues nothing (abandonment) — so abandonment happens exactly
at the documented ceilings: 10 for the short bookkeeping phases
(`ReadConfigZeroResult`, `ReadConfigTwoResult`, `GenerateEntropyCommand`,
`SetupConfigTwo`, `CreateKeyPair`), 30 for `LockZoneConfig` and 100 for
`LockResponse`, `LockDataOtp`, `LockSlot0`, 1000 for the random-number
read-back (`GenerateEntropyResult`), 5000 for the key-pair read-back
(`ReadKeyPair`). -/
theorem nak_retry_ceilings (B : List Nat) (L slot : Nat) :
    (∀ (N : Nat) (s : State), s.op = Operation.ReadConfigZeroResult 0 →
       s.buffer = none → s.op_len = L → N ≤ 10 →
       nak_iter B N s =
         .ok ({ s with op := Operation.ReadConfigZeroResult N, buffer := none },
           List.replicate N (Effect.i2cRead (L + RESPONSE_COUNT_SIZE + CRC_SIZE)))) ∧
    (∀ s : State, s.op = Operation.ReadConfigZeroResult 10 → s.buffer = none →
       no_reissue (command_complete s B theNak false)) ∧
    (∀ (N : Nat) (s : State), s.op = Operation.ReadConfigTwoResult 0 →
       s.buffer = none → s.op_len = L → N ≤ 10 →
       nak_iter B N s =
         .ok ({ s with op := Operation.ReadConfigTwoResult N, buffer := none },
           List.replicate N (Effect.i2cRead (L + RESPONSE_COUNT_SIZE + CRC_SIZE)))) ∧
    (∀ s : State, s.op = Operation.ReadConfigTwoResult 10 → s.buffer = none →
       no_reissue (command_complete s B theNak false)) ∧
    (∀ (N : Nat) (s : State), s.op = Operation.GenerateEntropyCommand 0 →
       s.buffer = none → s.op_len = L → N ≤ 10 →
       nak_iter B N s =
         .ok ({ s with op := Operation.GenerateEntropyCommand N, buffer := none },
           List.replicate N
             (Effect.i2cWrite (mkFrame COMMAND_OPCODE_RANDOM 0 0 (staged_payload B 0)) 8))) ∧
    (∀ s : State, s.op = Operation.GenerateEntropyCommand 10 → s.buffer = none →
       no_reissue (command_complete s B theNak false)) ∧
    (∀ (N : Nat) (s : State), s.op = Operation.GenerateEntropyResult 0 →
       s.buffer = none → s.op_len = L → N ≤ 1000 →
       nak_iter B N s =
         .ok ({ s with op := Operation.GenerateEntropyResult N, buffer := none },
           List.replicate N
             (Effect.i2cRead (RESPONSE_COUNT_SIZE + RESPONSE_RANDOM_SIZE + CRC_SIZE)))) ∧
    (∀ s : State, s.op = Operation.GenerateEntropyResult 1000 → s.buffer = none →
       no_reissue (command_complete s B theNak false)) ∧
    (∀ (N : Nat) (s : State), s.op = Operation.SetupConfigTwo 0 →
       s.buffer = none → s.op_len = 4 → N ≤ 10 →
       nak_iter B N s =
         .ok ({ s with op := Operation.SetupConfigTwo N, buffer := none },
           List.replicate N
             (Effect.i2cWrite (mkFrame COMMAND_OPCODE_WRITE 0 5 (staged_payload B 4)) 12))) ∧
    (∀ s : State, s.op = Operation.SetupConfigTwo 10 → s.buffer = none →
       no_reissue (command_complete s B theNak false)) ∧
    (∀ (N : Nat) (s : State), s.op = Operation.LockZoneConfig 0 →
       s.buffer = none → s.op_len = L → N ≤ 30 →
       nak_iter B N s =
         .ok ({ s with op := Operation.LockZoneConfig N, buffer := none },
           List.replicate N
             (Effect.i2cWrite
               (mkFrame COMMAND_OPCODE_LOCK LOCK_MODE_ZONE_CONFIG 0 (staged_payload B 0))
               8))) ∧
    (∀ s : State, s.op = Operation.LockZoneConfig 30 → s.buffer = none →
       no_reissue (command_complete s B theNak false)) ∧
    (∀ (N : Nat) (s : State), s.op = Operation.LockResponse 0 →
       s.buffer = none → s.op_len = L → N ≤ 100 →
       nak_iter B N s =
         .ok ({ s with op := Operation.LockResponse N, buffer := none },
           List.replicate N
             (Effect.i2cRead (RESPONSE_COUNT_SIZE + RESPONSE_SIGNAL_SIZE + CRC_SIZE)))) ∧
    (∀ s : State, s.op = Operation.LockResponse 100 → s.buffer = none →
       no_reissue (command_complete s B theNak false)) ∧
    (∀ (N : Nat) (s : State), s.op = Operation.CreateKeyPair 0 slot →
       s.buffer = none → s.op_len = L → N ≤ 10 →
       nak_iter B N s =
         .ok ({ s with op := Operation.CreateKeyPair N slot, buffer := none },
           List.replicate N
             (Effect.i2cWrite
               (mkFrame COMMAND_OPCODE_GENKEY GENKEY_MODE_NEW_PRIVATE slot
                 (staged_payload B 0)) 8))) ∧
    (∀ s : State, s.op = Operation.CreateKeyPair 10 slot → s.buffer = none →
       no_reissue (command_complete s B theNak false)) ∧
    (∀ (N : Nat) (s : State), s.op = Operation.ReadKeyPair 0 →
       s.buffer = none → s.op_len = L → N ≤ 5000 →
       nak_iter B N s =
         .ok ({ s with op := Operation.ReadKeyPair N, buffer := none },
           List.replicate N
             (Effect.i2cRead (RESPONSE_COUNT_SIZE + PUBLIC_KEY_SIZE + CRC_SIZE)))) ∧
    (∀ s : State, s.op = Operation.ReadKeyPair 5000 → s.buffer = none →
       no_reissue (command_complete s B theNak false)) ∧
    (∀ (N : Nat) (s : State), s.op = Operation.LockDataOtp 0 →
       s.buffer = none → s.op_len = L → N ≤ 100 →
       nak_iter B N s =
         .ok ({ s with op := Operation.LockDataOtp N, buffer := none },
           List.replicate N
             (Effect.i2cWrite
               (mkFrame COMMAND_OPCODE_LOCK LOCK_MODE_ZONE_DATA_AND_OTP 0
                 (staged_payload B 0)) 8))) ∧
    (∀ s : State, s.op = Operation.LockDataOtp 100 → s.buffer = none →
       no_reissue (command_complete s B theNak false)) ∧
    (∀ (N : Nat) (s : State), s.op = Operation.LockSlot0 0 →
       s.buffer = none → s.op_len = L → N ≤ 100 →
       nak_iter B N s =
         .ok ({ s with op := Operation.LockSlot0 N, buffer := none },
           List.replicate N
             (Effect.i2cWrite
               (mkFrame COMMAND_OPCODE_LOCK LOCK_MODE_SLOT0 0 (staged_payload B 0)) 8))) ∧
    (∀ s : State, s.op = Operation.LockSlot0 100 → s.buffer = none →
       no_reissue (command_complete s B theNak false)) := by
  refine ⟨?_, ?_, ?_, ?_, ?_, ?_, ?_, ?_, ?_, ?_, ?_,
          ?_, ?_, ?_, ?_, ?_, ?_, ?_, ?_, ?_, ?_, ?_⟩
  · intro N s h1 h2 h3 h4
    have h := nak_iter_replicate B Operation.ReadConfigZeroResult
      (Effect.i2cRead (L + RESPONSE_COUNT_SIZE + CRC_SIZE)) 10 L
      (fun s n ho hb hL hn => nak_step_rcz B L s n ho hb hL hn) N 0 s h1 h2 h3 (by omega)
    simpa using h
  · intro s h1 h2
    cases s
    simp_all [no_reissue, command_complete, nakStatus, theNak, i2c_effects, is_i2c_effect]
  · intro N s h1 h2 h3 h4
    have h := nak_iter_replicate B Operation.ReadConfigTwoResult
      (Effect.i2cRead (L + RESPONSE_COUNT_SIZE + CRC_SIZE)) 10 L
      (fun s n ho hb hL hn => nak_step_rct B L s n ho hb hL hn) N 0 s h1 h2 h3 (by omega)
    simpa using h
  · intro s h1 h2
    cases s
    simp_all [no_reissue, command_complete, nakStatus, theNak, i2c_effects, is_i2c_effect]
  · intro N s h1 h2 h3 h4
    have h := nak_iter_replicate B Operation.GenerateEntropyCommand
      (Effect.i2cWrite (mkFrame COMMAND_OPCODE_RANDOM 0 0 (staged_payload B 0)) 8) 10 L
      (fun s n ho hb hL hn => nak_step_gec B L s n ho hb hL hn) N 0 s h1 h2 h3 (by omega)
    simpa using h
  · intro s h1 h2
    by_cases hc : s.entropy_client <;>
      (cases s
       simp_all [no_reissue, command_complete, nakStatus, theNak, i2c_effects,
         is_i2c_effect])
  · intro N s h1 h2 h3 h4
    have h := nak_iter_replicate B Operation.GenerateEntropyResult
      (Effect.i2cRead (RESPONSE_COUNT_SIZE + RESPONSE_RANDOM_SIZE + CRC_SIZE)) 1000 L
      (fun s n ho hb hL hn => nak_step_ger B L s n ho hb hL hn) N 0 s h1 h2 h3 (by omega)
    simpa using h
  · intro s h1 h2
    by_cases hc : s.entropy_client <;>
      (cases s
       simp_all [no_reissue, command_complete, nakStatus, theNak, i2c_effects,
         is_i2c_effect])
  · intro N s h1 h2 h3 h4
    have h := nak_iter_replicate B Operation.SetupConfigTwo
      (Effect.i2cWrite (mkFrame COMMAND_OPCODE_WRITE 0 5 (staged_payload B 4)) 12) 10 4
      (fun s n ho hb hL hn => nak_step_sct B s n ho hb hL hn) N 0 s h1 h2 h3 (by omega)
    simpa using h
  · intro s h1 h2
    cases s
    simp_all [no_reissue, command_complete, nakStatus, theNak, i2c_effects, is_i2c_effect]
  · intro N s h1 h2 h3 h4
    have h := nak_iter_replicate B Operation.LockZoneConfig
      (Effect.i2cWrite
        (mkFrame COMMAND_OPCODE_LOCK LOCK_MODE_ZONE_CONFIG 0 (staged_payload B 0)) 8) 30 L
      (fun s n ho hb hL hn => nak_step_lzc B L s n ho hb hL hn) N 0 s h1 h2 h3 (by omega)
    simpa using h
  · intro s h1 h2
    cases s
    simp_all [no_reissue, command_complete, nakStatus, theNak, i2c_effects, is_i2c_effect]
  · intro N s h1 h2 h3 h4
    have h := nak_iter_replicate B Operation.LockResponse
      (Effect.i2cRead (RESPONSE_COUNT_SIZE + RESPONSE_SIGNAL_SIZE + CRC_SIZE)) 100 L
      (fun s n ho hb hL hn => nak_step_lr B L s n ho hb hL hn) N 0 s h1 h2 h3 (by omega)
    simpa using h
  · intro s h1 h2
    cases s
    simp_all [no_reissue, command_complete, nakStatus, theNak, i2c_effects, is_i2c_effect]
  · intro N s h1 h2 h3 h4
    have h := nak_iter_replicate B (fun n => Operation.CreateKeyPair n slot)
      (Effect.i2cWrite
        (mkFrame COMMAND_OPCODE_GENKEY GENKEY_MODE_NEW_PRIVATE slot
          (staged_payload B 0)) 8) 10 L
      (fun s n ho hb hL hn => nak_step_ckp B L slot s n ho hb hL hn) N 0 s h1 h2 h3 (by omega)
    simpa using h
  · intro s h1 h2
    cases s
    simp_all [no_reissue, command_complete, nakStatus, theNak, i2c_effects, is_i2c_effect]
  · intro N s h1 h2 h3 h4
    have h := nak_iter_replicate B Operation.ReadKeyPair
      (Effect.i2cRead (RESPONSE_COUNT_SIZE + PUBLIC_KEY_SIZE + CRC_SIZE)) 5000 L
      (fun s n ho hb hL hn => nak_step_rkp B L s n ho hb hL hn) N 0 s h1 h2 h3 (by omega)
    simpa using h
  · intro s h1 h2
    cases s
    simp_all [no_reissue, command_complete, nakStatus, theNak, i2c_effects, is_i2c_effect]
  · intro N s h1 h2 h3 h4
    have h := nak_iter_replicate B Operation.LockDataOtp
      (Effect.i2cWrite
        (mkFrame COMMAND_OPCODE_LOCK LOCK_MODE_ZONE_DATA_AND_OTP 0
          (staged_payload B 0)) 8) 100 L
      (fun s n ho hb hL hn => nak_step_ldo B L s n ho hb hL hn) N 0 s h1 h2 h3 (by omega)
    simpa using h
  · intro s h1 h2
    cases s
    simp_all [no_reissue, command_complete, nakStatus, theNak, i2c_effects, is_i2c_effect]
  · intro N s h1 h2 h3 h4
    have h := nak_iter_replicate B Operation.LockSlot0
      (Effect.i2cWrite
        (mkFrame COMMAND_OPCODE_LOCK LOCK_MODE_SLOT0 0 (staged_payload B 0)) 8) 100 L
      (fun s n ho hb hL hn => nak_step_ls0 B L s n ho hb hL hn) N 0 s h1 h2 h3 (by omega)
    simpa using h
  · intro s h1 h2
    cases s
    simp_all [no_reissue, command_complete, nakStatus, theNak, i2c_effects, is_i2c_effect]

/-- Witness for C4: two consecutive NAKs in the `ReadConfigZeroResult`
phase (read length 32) re-issue the 35-byte read twice and leave the
counter at 2. -/
theorem nak_retry_ceilings_witness :
    nak_iter (List.replicate 35 0) 2
      { idleState with op := Operation.ReadConfigZeroResult 0, buffer := none,
                       op_len := 32 } =
      .ok ({ idleState with op := Operation.ReadConfigZeroResult 2, buffer := none,
                            op_len := 32 },
           List.replicate 2 (Effect.i2cRead 35)) := by
  have h := (nak_retry_ceilings (List.replicate 35 0) 32 0).1 2
    { idleState with op := Operation.ReadConfigZeroResult 0, buffer := none, op_len := 32 }
    rfl rfl rfl (by omega)
  rw [h]
  decide

end Atecc508a
